import Mathlib

/-!
Verification development for the stateless multi-turn dialogue engine of the
genai-ocr-chatbot repository. The repository ships the chat core's design
documentation (submission readme files); the executable chat-service modules
themselves (analyzer, gating, knowledge base, answerer, orchestrator) are not
part of the checked-in sources, so those components are modelled here from the
specification's words. The language auto-detector is quoted verbatim in the
documentation and is embedded from that code.
-/

set_option maxRecDepth 4096

/-- Modelled from the spec: the closed enumeration of exactly three insurance
providers (HMOs מכבי, מאוחדת, כללית). The chat-service module holding this
enumeration is missing from the repository sources. -/
inductive Provider
  | maccabi
  | meuhedet
  | clalit
deriving DecidableEq, Repr

/-- Modelled from the spec: the closed enumeration of exactly three plan tiers
(זהב, כסף, ארד). -/
inductive Tier
  | gold
  | silver
  | bronze
deriving DecidableEq, Repr

/-- Modelled from the spec: the seven profile field names of the UserProfile
data model. -/
inductive FieldName
  | fullName
  | idNumber
  | gender
  | age
  | provider
  | tier
  | cardNumber
deriving DecidableEq, Repr

/-- Modelled from the spec: UserProfile, a mapping of field name to optional
value; provider and tier are stored as validated members of their closed
enumerations. -/
structure UserProfile where
  fullName : Option String := none
  idNumber : Option String := none
  gender : Option String := none
  age : Option Nat := none
  provider : Option Provider := none
  tier : Option Tier := none
  cardNumber : Option String := none
deriving DecidableEq, Repr

/-- The profile with every field unset. -/
def emptyProfile : UserProfile := {}

/-- Modelled from the spec: the answer-category enumeration of AnalysisResult. -/
inductive AnswerCategory
  | generalDescription
  | specificBenefits
  | eligibility
  | costCoverage
  | documentsRequired
  | processSteps
  | other
deriving DecidableEq, Repr

/-- Modelled from the spec: the intent enumeration of AnalysisResult. -/
inductive Intent
  | collection
  | questionAnswering
  | other
deriving DecidableEq, Repr

/-- Modelled from the spec: the fixed required-field table of the Gating
Policy; specific-benefits, eligibility and cost-coverage require provider and
tier, all other categories require no fields. -/
def requiredFields : AnswerCategory → List FieldName
  | .specificBenefits => [.provider, .tier]
  | .eligibility => [.provider, .tier]
  | .costCoverage => [.provider, .tier]
  | .generalDescription => []
  | .documentsRequired => []
  | .processSteps => []
  | .other => []

/-- Whether a named field is present (set to a valid value) in a profile. -/
def fieldPresent (p : UserProfile) : FieldName → Bool
  | .fullName => p.fullName.isSome
  | .idNumber => p.idNumber.isSome
  | .gender => p.gender.isSome
  | .age => p.age.isSome
  | .provider => p.provider.isSome
  | .tier => p.tier.isSome
  | .cardNumber => p.cardNumber.isSome

/-- The ordered list of required fields of a category that are missing from a
profile. -/
def missingOf (cat : AnswerCategory) (p : UserProfile) : List FieldName :=
  (requiredFields cat).filter (fun f => ! fieldPresent p f)

/-- Human-readable label of a profile field, used to phrase the clarifying
question. -/
def fieldLabel : FieldName → String
  | .fullName => "full name"
  | .idNumber => "id number"
  | .gender => "gender"
  | .age => "age"
  | .provider => "insurance provider"
  | .tier => "membership tier"
  | .cardNumber => "insurance card number"

/-- Modelled from the spec: the single consolidated clarifying question naming
every currently-missing required field in one utterance. -/
def questionFor (fs : List FieldName) : String :=
  "To answer precisely, please provide your " ++
    String.intercalate " and your " (fs.map fieldLabel) ++ "."

/-- Modelled from the spec: the result of the Gating Policy. -/
structure GateResult where
  sufficient : Bool
  missingFields : List FieldName
  nextQuestion : Option String
deriving DecidableEq, Repr

/-- Modelled from the spec: the Gating Policy, a pure function from answer
category and profile to sufficiency, ordered missing fields, and one next
clarifying question (present iff insufficient). -/
def gate (cat : AnswerCategory) (p : UserProfile) : GateResult :=
  let miss := missingOf cat p
  if miss.isEmpty then
    { sufficient := true, missingFields := [], nextQuestion := none }
  else
    { sufficient := false, missingFields := miss,
      nextQuestion := some (questionFor miss) }

/-- Character-list test: the first list starts the second. -/
def leadsWith : List Char → List Char → Bool
  | [], _ => true
  | _ :: _, [] => false
  | a :: as, b :: bs => a == b && leadsWith as bs

/-- Character-list test: the first list occurs contiguously inside the second. -/
def occursIn : List Char → List Char → Bool
  | needle, [] => needle.isEmpty
  | needle, c :: rest => leadsWith needle (c :: rest) || occursIn needle rest

/-- A question text mentions a field when the field's label occurs in it. -/
def mentions (q : String) (f : FieldName) : Bool :=
  occursIn (fieldLabel f).data q.data

/-- Modelled from the spec: the raw values an extraction policy pulled out of
the free-text message, before validation against the closed enumerations.
Provider and tier are raw strings at this stage. The extraction module is
missing from the repository sources. -/
structure Extraction where
  fullName : Option String := none
  idNumber : Option String := none
  gender : Option String := none
  age : Option Nat := none
  provider : Option String := none
  tier : Option String := none
  cardNumber : Option String := none
deriving DecidableEq, Repr

/-- Modelled from the spec: validation of a raw provider name against the
closed three-element enumeration; any other string is rejected. -/
def parseProvider : String → Option Provider
  | "מכבי" => some .maccabi
  | "מאוחדת" => some .meuhedet
  | "כללית" => some .clalit
  | _ => none

/-- Modelled from the spec: validation of a raw tier name against the closed
three-element enumeration; any other string is rejected. -/
def parseTier : String → Option Tier
  | "זהב" => some .gold
  | "כסף" => some .silver
  | "ארד" => some .bronze
  | _ => none

/-- Merge step for a plain field: a newly extracted value overwrites, an
absent one leaves the prior value untouched. -/
def updateField {α : Type} (old : Option α) (new : Option α) : Option α :=
  match new with
  | none => old
  | some v => some v

/-- Merge step for an enumerated field: a newly extracted raw value is first
validated; an invalid value is discarded and the prior value is kept. -/
def updateValidated {β : Type} (old : Option β) (raw : Option String)
    (parse : String → Option β) : Option β :=
  match raw with
  | none => old
  | some s =>
    match parse s with
    | none => old
    | some v => some v

/-- Modelled from the spec: the Profile Merger. Extracted values are merged
into the prior profile; fields absent from the extraction are carried through
unchanged, and enumerated fields are validated with invalid values discarded. -/
def mergeProfile (prior : UserProfile) (ext : Extraction) : UserProfile :=
  { fullName := updateField prior.fullName ext.fullName
    idNumber := updateField prior.idNumber ext.idNumber
    gender := updateField prior.gender ext.gender
    age := updateField prior.age ext.age
    provider := updateValidated prior.provider ext.provider parseProvider
    tier := updateValidated prior.tier ext.tier parseTier
    cardNumber := updateField prior.cardNumber ext.cardNumber }

/-- The extraction carrying no field values at all. -/
def emptyExtraction : Extraction := {}

/-- Modelled from the spec: a KnowledgeChunk of the read-only corpus, tagged
with category, service, provider and tier, plus a source identifier. -/
structure KnowledgeChunk where
  content : String
  category : AnswerCategory
  service : String
  provider : Provider
  tier : Tier
  sourceId : String
deriving DecidableEq, Repr

/-- Modelled from the spec: a RetrievalQuery with free-text query and exact
tag filters; a filter left unset does not constrain that tag. -/
structure RetrievalQuery where
  queryText : String
  category : AnswerCategory
  provider : Option Provider
  tier : Option Tier
deriving DecidableEq, Repr

/-- An optional exact tag filter: absent matches everything, present matches
only the identical tag value. -/
def matchOpt {α : Type} [DecidableEq α] (filter : Option α) (tag : α) : Bool :=
  match filter with
  | none => true
  | some v => decide (v = tag)

/-- Modelled from the spec: exact tag matching of a chunk against a query;
chunks that do not match are excluded outright. -/
def matchesFilters (q : RetrievalQuery) (c : KnowledgeChunk) : Bool :=
  decide (q.category = c.category) && matchOpt q.provider c.provider &&
    matchOpt q.tier c.tier

/-- Insertion of one element into a list sorted by a boolean order. -/
def insertBy {α : Type} (le : α → α → Bool) (x : α) : List α → List α
  | [] => [x]
  | y :: ys => if le x y then x :: y :: ys else y :: insertBy le x ys

/-- Insertion sort by a boolean order. -/
def sortBy {α : Type} (le : α → α → Bool) : List α → List α
  | [] => []
  | x :: xs => insertBy le x (sortBy le xs)

/-- Modelled from the spec: ranking order of retrieved chunks, descending
similarity score with ties broken by source identifier, ascending. -/
def rankLE (score : KnowledgeChunk → Nat) (a b : KnowledgeChunk) : Bool :=
  score b < score a ||
    (score a == score b && !(decide (b.sourceId < a.sourceId)))

/-- Modelled from the spec: the Knowledge Store retrieval contract. Exact tag
filtering takes precedence over similarity ranking; non-matching chunks are
excluded outright, the matching ones are ranked deterministically and at most
maxN are returned. When nothing matches the result is empty. -/
def retrieve (corpus : List KnowledgeChunk) (score : KnowledgeChunk → Nat)
    (q : RetrievalQuery) (maxN : Nat) : List KnowledgeChunk :=
  (sortBy (rankLE score) (corpus.filter (fun c => matchesFilters q c))).take maxN

/-- Modelled from the spec: a citation of an AnswerResult, referencing a
KnowledgeChunk source identifier. -/
structure Citation where
  source : String
  category : AnswerCategory
  service : String
deriving DecidableEq, Repr

/-- Modelled from the spec: the AnswerResult of the Grounded Answerer, with a
grounding flag that is false exactly in the no-grounding-available state. -/
structure AnswerResult where
  answerText : String
  citations : List Citation
  grounded : Bool
  disclaimer : String
deriving DecidableEq, Repr

/-- The short non-advisory disclaimer appended to every answer. -/
def disclaimerText (lang : String) : String :=
  if lang = "he" then "מידע כללי בלבד, אינו ייעוץ רפואי." else
    "General information only, not medical advice."

/-- The fixed text of the no-grounding-available state. -/
def noGroundingText (lang : String) : String :=
  if lang = "he" then "לא נמצא מידע מבוסס לשאלה זו." else
    "No grounded information is available for this request."

/-- Answer prose composed exclusively from the retrieved chunk contents. -/
def composeAnswer (chunks : List KnowledgeChunk) : String :=
  String.intercalate " " (chunks.map (fun c => c.content))

/-- Modelled from the spec: the Grounded Answerer. With an empty retrieval it
returns a result flagged as no grounding available instead of prose; otherwise
the answer is composed from, and cites exactly, the retrieved chunks. -/
def answererRun (lang : String) (chunks : List KnowledgeChunk) : AnswerResult :=
  if chunks.isEmpty then
    { answerText := noGroundingText lang, citations := [], grounded := false,
      disclaimer := disclaimerText lang }
  else
    { answerText := composeAnswer chunks,
      citations := chunks.map (fun c =>
        { source := c.sourceId, category := c.category, service := c.service }),
      grounded := true,
      disclaimer := disclaimerText lang }

/-- A character in the Hebrew Unicode block, range 0x0590 to 0x05FF. -/
def isHebrewChar (c : Char) : Bool :=
  0x590 ≤ c.toNat && c.toNat ≤ 0x5FF

/-- A whitespace character in the sense of Python's str.isspace, the set
stripped by str.strip in the embedded code: the ASCII whitespace and
separator controls 0x09 to 0x0D, 0x1C to 0x1F and 0x20, the next line 0x85,
the no-break space 0xA0, the Ogham space mark 0x1680, the fixed-width spaces
0x2000 to 0x200A, the line and paragraph separators 0x2028 and 0x2029, the
narrow no-break space 0x202F, the medium mathematical space 0x205F and the
ideographic space 0x3000. -/
def isSpaceChar (c : Char) : Bool :=
  (0x9 ≤ c.toNat && c.toNat ≤ 0xd) ||
    (0x1c ≤ c.toNat && c.toNat ≤ 0x20) ||
    c.toNat == 0x85 || c.toNat == 0xa0 || c.toNat == 0x1680 ||
    (0x2000 ≤ c.toNat && c.toNat ≤ 0x200a) ||
    c.toNat == 0x2028 || c.toNat == 0x2029 || c.toNat == 0x202f ||
    c.toNat == 0x205f || c.toNat == 0x3000

/-- The character list of a string with leading and trailing Unicode
whitespace removed, the embedding of Python's message.strip(). -/
def pyStrip (s : String) : List Char :=
  ((s.data.dropWhile isSpaceChar).reverse.dropWhile isSpaceChar).reverse

/-- The number of Hebrew-block characters of a string, the embedding of
len(re.findall(hebrew-block pattern, message)). -/
def hebrewCount (s : String) : Nat :=
  (s.data.filter isHebrewChar).length

/-- Embedded from the detect_language function quoted in the repository
documentation: hebrew_ratio = hebrew_chars / len(message.strip()); return he
when the ratio exceeds 0.2 and en otherwise. The Python code divides by the
stripped length without guarding it, so a whitespace-only message raises
ZeroDivisionError; that fallible case is embedded as none. The exceeds-0.2
comparison is the exact rational comparison 5 * hebrew_chars > stripped
length. -/
def detect_language (message : String) : Option String :=
  let n := (pyStrip message).length
  if n = 0 then none
  else if n < 5 * hebrewCount message then some "he" else some "en"

/-- Modelled from the spec: a role and content pair of the caller-supplied
conversation history. -/
structure HistoryItem where
  role : String
  content : String
deriving DecidableEq, Repr

/-- Modelled from the spec: the logical turn request shape, with the
caller-supplied message, declared language, profile and history as the only
continuity mechanism. -/
structure TurnRequest where
  message : String
  language : String
  userProfile : UserProfile
  history : List HistoryItem
deriving DecidableEq, Repr

/-- Modelled from the spec: the action field of the turn response, one of
exactly collect, answer and clarify. -/
inductive TurnAction
  | collect
  | answer
  | clarify
deriving DecidableEq, Repr

/-- Modelled from the spec: the unified turn response shape. -/
structure TurnResponse where
  intent : Intent
  answerType : AnswerCategory
  updatedProfile : UserProfile
  knownFields : List FieldName
  missingFields : List FieldName
  sufficientContext : Bool
  action : TurnAction
  nextQuestion : Option String
  answerResult : Option AnswerResult
deriving DecidableEq, Repr

/-- Modelled from the spec: the fire-and-forget telemetry event emitted to the
metrics collaborator at each terminal transition. -/
structure TelemetryEvent where
  action : TurnAction
  category : AnswerCategory
  success : Bool
deriving DecidableEq, Repr

/-- Modelled from the spec: a swappable extraction policy taking the message,
the history and the resolved language to a raw extraction. -/
abbrev ExtractPolicy := String → List HistoryItem → String → Extraction

/-- Modelled from the spec: a swappable classification policy taking the
message and the resolved language to an intent and an answer category. -/
abbrev ClassifyPolicy := String → String → Intent × AnswerCategory

/-- Modelled from the spec: a swappable similarity policy scoring a chunk
against the message text. -/
abbrev SimPolicy := String → KnowledgeChunk → Nat

/-- The turn's resolved language: the declared one, or the auto-detected one
with the Hebrew default of the service. -/
def resolveLanguage (req : TurnRequest) : String :=
  if req.language = "auto" then (detect_language req.message).getD "he"
  else req.language

/-- The list of all seven profile field names in fixed order. -/
def allFields : List FieldName :=
  [.fullName, .idNumber, .gender, .age, .provider, .tier, .cardNumber]

/-- The fields currently present in a profile. -/
def presentFields (p : UserProfile) : List FieldName :=
  allFields.filter (fieldPresent p)

/-- The retrieval query of a turn, scoped by the category and the profile's
provider and tier tags. -/
def mkQuery (cat : AnswerCategory) (p : UserProfile) (msg : String) :
    RetrievalQuery :=
  { queryText := msg, category := cat, provider := p.provider, tier := p.tier }

/-- The profile after the START to ANALYZED transition: the prior profile
merged with the turn's extraction. -/
def turnProfile (extract : ExtractPolicy) (req : TurnRequest) : UserProfile :=
  mergeProfile req.userProfile (extract req.message req.history (resolveLanguage req))

/-- The turn's classified intent. -/
def turnIntent (classify : ClassifyPolicy) (req : TurnRequest) : Intent :=
  (classify req.message (resolveLanguage req)).1

/-- The turn's classified answer category. -/
def turnCategory (classify : ClassifyPolicy) (req : TurnRequest) : AnswerCategory :=
  (classify req.message (resolveLanguage req)).2

/-- The turn's gating result on the merged profile. -/
def turnGate (extract : ExtractPolicy) (classify : ClassifyPolicy)
    (req : TurnRequest) : GateResult :=
  gate (turnCategory classify req) (turnProfile extract req)

/-- The turn's retrieved chunks, scoped by category and the merged profile's
provider and tier tags. -/
def turnChunks (extract : ExtractPolicy) (classify : ClassifyPolicy)
    (sim : SimPolicy) (corpus : List KnowledgeChunk) (maxN : Nat)
    (req : TurnRequest) : List KnowledgeChunk :=
  retrieve corpus (sim req.message)
    (mkQuery (turnCategory classify req) (turnProfile extract req) req.message) maxN

/-- Modelled from the spec: the Turn Orchestrator state machine for one
request. START runs merger and classifier; insufficient gating terminates in
COLLECT with one consolidated question; sufficient gating retrieves, runs the
Grounded Answerer and terminates in ANSWERED, with the clarify action in the
no-grounding state. Each terminal transition appends exactly one telemetry
event. The result pairs the response with the emitted events. -/
def runTurnCore (extract : ExtractPolicy) (classify : ClassifyPolicy)
    (sim : SimPolicy) (corpus : List KnowledgeChunk) (maxN : Nat)
    (req : TurnRequest) : TurnResponse × List TelemetryEvent :=
  let g := turnGate extract classify req
  if g.sufficient then
    let ar := answererRun (resolveLanguage req)
      (turnChunks extract classify sim corpus maxN req)
    let act := if ar.grounded then TurnAction.answer else TurnAction.clarify
    ({ intent := turnIntent classify req, answerType := turnCategory classify req,
       updatedProfile := turnProfile extract req,
       knownFields := presentFields (turnProfile extract req), missingFields := [],
       sufficientContext := true, action := act, nextQuestion := none,
       answerResult := some ar },
     [{ action := act, category := turnCategory classify req, success := true }])
  else
    ({ intent := turnIntent classify req, answerType := turnCategory classify req,
       updatedProfile := turnProfile extract req,
       knownFields := presentFields (turnProfile extract req),
       missingFields := g.missingFields,
       sufficientContext := false, action := .collect,
       nextQuestion := g.nextQuestion, answerResult := none },
     [{ action := .collect, category := turnCategory classify req, success := true }])

/-- The user-facing response of one turn. -/
def runTurn (extract : ExtractPolicy) (classify : ClassifyPolicy)
    (sim : SimPolicy) (corpus : List KnowledgeChunk) (maxN : Nat)
    (req : TurnRequest) : TurnResponse :=
  (runTurnCore extract classify sim corpus maxN req).1

/-- Modelled from the spec: delivery of the turn's telemetry to the metrics
collaborator, a fire-and-forget call whose boolean delivery outcomes are
returned beside the unchanged user-facing response. -/
def runTurnDelivered (deliver : TelemetryEvent → Bool) (extract : ExtractPolicy)
    (classify : ClassifyPolicy) (sim : SimPolicy) (corpus : List KnowledgeChunk)
    (maxN : Nat) (req : TurnRequest) : TurnResponse × List Bool :=
  let rc := runTurnCore extract classify sim corpus maxN req
  (rc.1, rc.2.map deliver)

/-- Modelled from the spec: the whole server-side state, only the read-only
knowledge corpus loaded at startup; there is no session store. -/
structure ServerState where
  corpus : List KnowledgeChunk
deriving DecidableEq, Repr

/-- Modelled from the spec: one request handled against the server state,
returning the state the server keeps afterwards together with the response. -/
def serverStep (extract : ExtractPolicy) (classify : ClassifyPolicy)
    (sim : SimPolicy) (maxN : Nat) (s : ServerState) (req : TurnRequest) :
    ServerState × TurnResponse :=
  (s, runTurn extract classify sim s.corpus maxN req)

/-- A sequence of turns handled by the server, threading its state through. -/
def serverRun (extract : ExtractPolicy) (classify : ClassifyPolicy)
    (sim : SimPolicy) (maxN : Nat) (s : ServerState) :
    List TurnRequest → ServerState × List TurnResponse
  | [] => (s, [])
  | r :: rs =>
    let first := serverStep extract classify sim maxN s r
    let rest := serverRun extract classify sim maxN first.1 rs
    (rest.1, first.2 :: rest.2)

/-- An extraction policy that extracts nothing from any message. -/
def nullExtract : ExtractPolicy := fun _ _ _ => {}

/-- A classification policy fixing the question-answering intent and the
specific-benefits category. -/
def qaClassify : ClassifyPolicy :=
  fun _ _ => (Intent.questionAnswering, AnswerCategory.specificBenefits)

/-- A similarity policy scoring every chunk zero. -/
def zeroSim : SimPolicy := fun _ _ => 0

/-- A chunk score assigning zero to every chunk. -/
def zeroScore : KnowledgeChunk → Nat := fun _ => 0

/-- A profile with both gated fields set. -/
def fullProfile : UserProfile :=
  { provider := some .maccabi, tier := some .gold }

/-- A sample partially-filled profile. -/
def sampleProfile : UserProfile :=
  { fullName := some "Dana Levi", provider := some .clalit }

/-- A sample request carrying the full profile. -/
def sampleRequest : TurnRequest :=
  { message := "what dental benefits are available", language := "en",
    userProfile := fullProfile, history := [] }

/-- A sample request carrying the empty profile. -/
def emptyRequest : TurnRequest :=
  { message := "what dental benefits are available", language := "en",
    userProfile := emptyProfile, history := [] }

/-- An extraction whose provider and tier values lie outside the closed
enumerations. -/
def badExtraction : Extraction :=
  { provider := some "Aetna", tier := some "Platinum" }

/-- A sample knowledge chunk tagged maccabi and gold. -/
def sampleChunk : KnowledgeChunk :=
  { content := "Full coverage for basic dental care.",
    category := .specificBenefits, service := "dental",
    provider := .maccabi, tier := .gold,
    sourceId := "dentel_services.html#1" }

/-- A query whose provider filter differs from the sample chunk's tag. -/
def mismatchQuery : RetrievalQuery :=
  { queryText := "dental", category := .specificBenefits,
    provider := some .meuhedet, tier := some .gold }

/-! ## Helper lemmas -/

theorem missingOf_eq_nil_iff (cat : AnswerCategory) (p : UserProfile) :
    missingOf cat p = [] ↔ ∀ f ∈ requiredFields cat, fieldPresent p f = true := by
  simp [missingOf, List.filter_eq_nil_iff]

theorem gate_sufficient_eq (cat : AnswerCategory) (p : UserProfile) :
    (gate cat p).sufficient = (missingOf cat p).isEmpty := by
  simp only [gate]
  split <;> simp_all

theorem gate_missingFields_eq (cat : AnswerCategory) (p : UserProfile) :
    (gate cat p).missingFields = missingOf cat p := by
  simp only [gate]
  split
  · next h => rw [List.isEmpty_iff.mp h]
  · rfl

theorem gate_insufficient_shape (cat : AnswerCategory) (p : UserProfile)
    (h : (gate cat p).sufficient = false) :
    gate cat p =
      ⟨false, missingOf cat p, some (questionFor (missingOf cat p))⟩ := by
  simp only [gate] at h ⊢
  split at h
  · simp at h
  · next hne =>
    rw [if_neg hne]

theorem mentions_all_missing (cat : AnswerCategory) (p : UserProfile) :
    ∀ f ∈ missingOf cat p, mentions (questionFor (missingOf cat p)) f = true := by
  cases cat <;> cases hp : p.provider <;> cases ht : p.tier <;>
    simp [missingOf, requiredFields, fieldPresent, hp, ht] <;> decide

theorem mem_insertBy {α : Type} (le : α → α → Bool) (x a : α) (l : List α) :
    a ∈ insertBy le x l ↔ a = x ∨ a ∈ l := by
  induction l with
  | nil => simp [insertBy]
  | cons y ys ih =>
    simp only [insertBy]
    split
    · simp [List.mem_cons]
    · simp only [List.mem_cons, ih]
      tauto

theorem mem_sortBy {α : Type} (le : α → α → Bool) (a : α) (l : List α) :
    a ∈ sortBy le l ↔ a ∈ l := by
  induction l with
  | nil => simp [sortBy]
  | cons x xs ih => simp [sortBy, mem_insertBy, ih]

theorem mem_retrieve_matches (corpus : List KnowledgeChunk)
    (score : KnowledgeChunk → Nat) (q : RetrievalQuery) (n : Nat)
    (c : KnowledgeChunk) (h : c ∈ retrieve corpus score q n) :
    matchesFilters q c = true := by
  unfold retrieve at h
  have h1 := List.take_subset n _ h
  rw [mem_sortBy] at h1
  exact (List.mem_filter.mp h1).2



/-! ## Claim theorems -/

/-- C1: for every answer category and profile, the Gating Policy reports
sufficient exactly when every field required by the fixed table is present in
the profile; specific-benefits, eligibility and cost-coverage require exactly
provider and tier, the remaining four categories require no fields and are
sufficient even on the empty profile, and gate never reports sufficient with a
required field missing. -/
theorem gate_sufficiency_iff (cat : AnswerCategory) (p : UserProfile) :
    ((gate cat p).sufficient = true ↔
      ∀ f ∈ requiredFields cat, fieldPresent p f = true) ∧
    requiredFields .specificBenefits = [.provider, .tier] ∧
    requiredFields .eligibility = [.provider, .tier] ∧
    requiredFields .costCoverage = [.provider, .tier] ∧
    requiredFields .generalDescription = [] ∧
    requiredFields .documentsRequired = [] ∧
    requiredFields .processSteps = [] ∧
    requiredFields .other = [] ∧
    (gate .generalDescription emptyProfile).sufficient = true ∧
    (gate .documentsRequired emptyProfile).sufficient = true ∧
    (gate .processSteps emptyProfile).sufficient = true ∧
    (gate .other emptyProfile).sufficient = true := by
  refine ⟨?_, rfl, rfl, rfl, rfl, rfl, rfl, rfl, by decide, by decide,
    by decide, by decide⟩
  rw [gate_sufficient_eq, List.isEmpty_iff]
  exact missingOf_eq_nil_iff cat p

/-- C1 witness: the theorem applied at the general-description category on the
empty profile and at specific-benefits on a filled profile. -/
theorem gate_sufficiency_iff_witness :
    (gate .generalDescription emptyProfile).sufficient = true ∧
    (gate .specificBenefits fullProfile).sufficient = true :=
  ⟨(gate_sufficiency_iff .generalDescription emptyProfile).1.mpr (by decide),
   (gate_sufficiency_iff .specificBenefits fullProfile).1.mpr (by decide)⟩

/-- C3: on every insufficient gating result the missing-field list is
non-empty, exactly one next clarifying question is produced, and its text
names every missing field, never a strict subset of them. -/
theorem single_consolidated_question (cat : AnswerCategory) (p : UserProfile)
    (h : (gate cat p).sufficient = false) :
    (gate cat p).missingFields ≠ [] ∧
    (gate cat p).nextQuestion =
      some (questionFor (gate cat p).missingFields) ∧
    ∀ f ∈ (gate cat p).missingFields,
      mentions (questionFor (gate cat p).missingFields) f = true := by
  have hmiss : missingOf cat p ≠ [] := by
    intro hnil
    have h2 := gate_sufficient_eq cat p
    rw [h, hnil] at h2
    simp at h2
  have hs := gate_insufficient_shape cat p h
  rw [hs]
  refine ⟨?_, rfl, mentions_all_missing cat p⟩
  simpa using hmiss

/-- C3 witness: the theorem applied at specific-benefits on the empty
profile, where both provider and tier are missing. -/
theorem single_consolidated_question_witness :
    (gate .specificBenefits emptyProfile).missingFields ≠ [] ∧
    (gate .specificBenefits emptyProfile).nextQuestion =
      some (questionFor (gate .specificBenefits emptyProfile).missingFields) ∧
    ∀ f ∈ (gate .specificBenefits emptyProfile).missingFields,
      mentions (questionFor (gate .specificBenefits emptyProfile).missingFields)
        f = true :=
  single_consolidated_question .specificBenefits emptyProfile (by decide)

/-- C4: retrieval returns a chunk only when its tags exactly match the query
filters, so a chunk tagged with one provider is never returned for a query
filtering on a different provider, and when nothing in the corpus matches the
filters the result is the empty list. -/
theorem retrieval_tag_exactness (corpus : List KnowledgeChunk)
    (score : KnowledgeChunk → Nat) (q : RetrievalQuery) (n : Nat) :
    (∀ c ∈ retrieve corpus score q n, matchesFilters q c = true) ∧
    (∀ c ∈ retrieve corpus score q n, ∀ z : Provider,
      q.provider = some z → c.provider = z) ∧
    ((∀ c ∈ corpus, matchesFilters q c = false) →
      retrieve corpus score q n = []) := by
  refine ⟨?_, ?_, ?_⟩
  · intro c hc
    exact mem_retrieve_matches corpus score q n c hc
  · intro c hc z hz
    have hm := mem_retrieve_matches corpus score q n c hc
    simp only [matchesFilters, hz, matchOpt, Bool.and_eq_true,
      decide_eq_true_eq] at hm
    exact hm.1.2.symm
  · intro hall
    unfold retrieve
    have : corpus.filter (fun c => matchesFilters q c) = [] := by
      rw [List.filter_eq_nil_iff]
      intro a ha
      simp [hall a ha]
    rw [this]
    simp [sortBy]

/-- C4 witness: the theorem applied at a one-chunk corpus tagged maccabi and
a query filtering on meuhedet, where retrieval is empty. -/
theorem retrieval_tag_exactness_witness :
    retrieve [sampleChunk] zeroScore mismatchQuery 5 = [] :=
  (retrieval_tag_exactness [sampleChunk] zeroScore mismatchQuery 5).2.2
    (by decide)

/-- C9: merging is the identity on the empty extraction, and any profile
field absent from the extracted values is carried through to the merged
profile unchanged, never nulled. -/
theorem merge_identity (P : UserProfile) (ext : Extraction) :
    mergeProfile P emptyExtraction = P ∧
    (ext.fullName = none → (mergeProfile P ext).fullName = P.fullName) ∧
    (ext.idNumber = none → (mergeProfile P ext).idNumber = P.idNumber) ∧
    (ext.gender = none → (mergeProfile P ext).gender = P.gender) ∧
    (ext.age = none → (mergeProfile P ext).age = P.age) ∧
    (ext.provider = none → (mergeProfile P ext).provider = P.provider) ∧
    (ext.tier = none → (mergeProfile P ext).tier = P.tier) ∧
    (ext.cardNumber = none → (mergeProfile P ext).cardNumber = P.cardNumber) := by
  refine ⟨rfl, ?_, ?_, ?_, ?_, ?_, ?_, ?_⟩ <;>
    · intro h
      simp [mergeProfile, updateField, updateValidated, h]

/-- C9 witness: the theorem applied at a concrete profile with the empty
extraction and with an extraction lacking a full name. -/
theorem merge_identity_witness :
    mergeProfile sampleProfile emptyExtraction = sampleProfile ∧
    (mergeProfile sampleProfile badExtraction).fullName =
      sampleProfile.fullName :=
  ⟨(merge_identity sampleProfile emptyExtraction).1,
   (merge_identity sampleProfile badExtraction).2.1 rfl⟩

/-- C6: the provider and tier enumerations have exactly three members; an
extracted provider or tier value outside its closed enumeration is discarded
without error, the field stays at its prior value (unset when it was unset),
and gating then counts the field as missing for every category that requires
fields. -/
theorem invalid_enum_discarded (prior : UserProfile) (ext : Extraction)
    (s t : String) :
    (∀ p : Provider, p = .maccabi ∨ p = .meuhedet ∨ p = .clalit) ∧
    (∀ q : Tier, q = .gold ∨ q = .silver ∨ q = .bronze) ∧
    (ext.provider = some s → parseProvider s = none →
      (mergeProfile prior ext).provider = prior.provider) ∧
    (ext.tier = some t → parseTier t = none →
      (mergeProfile prior ext).tier = prior.tier) ∧
    (ext.provider = some s → parseProvider s = none → prior.provider = none →
      ∀ cat : AnswerCategory, requiredFields cat ≠ [] →
        FieldName.provider ∈ (gate cat (mergeProfile prior ext)).missingFields) := by
  refine ⟨fun p => by cases p <;> simp, fun q => by cases q <;> simp,
    ?_, ?_, ?_⟩
  · intro h1 h2
    simp [mergeProfile, updateValidated, h1, h2]
  · intro h1 h2
    simp [mergeProfile, updateValidated, h1, h2]
  · intro h1 h2 h3 cat hcat
    have hm : (mergeProfile prior ext).provider = none := by
      simp [mergeProfile, updateValidated, h1, h2, h3]
    rw [gate_missingFields_eq]
    cases cat <;> simp_all [missingOf, requiredFields, fieldPresent]

/-- C6 witness: the theorem applied at the empty prior profile and an
extraction carrying values outside both enumerations; the merged provider
stays unset and gating lists it as missing for specific-benefits. -/
theorem invalid_enum_discarded_witness :
    (mergeProfile emptyProfile badExtraction).provider = none ∧
    FieldName.provider ∈
      (gate .specificBenefits (mergeProfile emptyProfile badExtraction)).missingFields :=
  ⟨(invalid_enum_discarded emptyProfile badExtraction "Aetna" "Platinum").2.2.1
      (by decide) (by decide),
   (invalid_enum_discarded emptyProfile badExtraction "Aetna" "Platinum").2.2.2.2
      (by decide) (by decide) rfl .specificBenefits (by decide)⟩

theorem answererRun_grounded (lang : String) (chunks : List KnowledgeChunk) :
    (answererRun lang chunks).grounded = !chunks.isEmpty := by
  unfold answererRun
  split <;> simp_all

/-- C2: with an empty retrieval the Grounded Answerer returns a result
flagged as no grounding available, with no citations and the fixed
no-grounding text; every citation it ever produces references a retrieved
chunk; and a turn run against an empty retrieval result never carries the
answer action. -/
theorem no_grounding_no_answer (lang : String) (chunks : List KnowledgeChunk)
    (extract : ExtractPolicy) (classify : ClassifyPolicy) (sim : SimPolicy)
    (n : Nat) (req : TurnRequest) :
    (chunks = [] → (answererRun lang chunks).grounded = false ∧
      (answererRun lang chunks).citations = [] ∧
      (answererRun lang chunks).answerText = noGroundingText lang) ∧
    (∀ cit ∈ (answererRun lang chunks).citations,
      ∃ ch ∈ chunks, cit.source = ch.sourceId ∧ cit.category = ch.category ∧
        cit.service = ch.service) ∧
    (runTurn extract classify sim [] n req).action ≠ TurnAction.answer := by
  refine ⟨?_, ?_, ?_⟩
  · intro h
    subst h
    exact ⟨rfl, rfl, rfl⟩
  · intro cit hcit
    unfold answererRun at hcit
    split at hcit
    · simp at hcit
    · simp only [List.mem_map] at hcit
      obtain ⟨ch, hch, hEq⟩ := hcit
      exact ⟨ch, hch, by rw [← hEq], by rw [← hEq], by rw [← hEq]⟩
  · have hchunks : turnChunks extract classify sim [] n req = [] := by
      unfold turnChunks retrieve
      simp [sortBy]
    simp only [runTurn, runTurnCore, hchunks]
    split
    · simp [answererRun]
    · simp

/-- C2 witness: the theorem applied at an empty chunk list, where the
answerer result is flagged ungrounded. -/
theorem no_grounding_no_answer_witness :
    (answererRun "en" []).grounded = false :=
  ((no_grounding_no_answer "en" [] nullExtract qaClassify zeroSim 3
    sampleRequest).1 rfl).1

/-- C7 counterexample: a turn gated sufficient (full profile, question
category specific-benefits) run against an empty corpus has an empty
retrieval, and its action is clarify, not answer — refuting the claim that
every sufficient turn emits the answer action. -/
theorem turn_action_counterexample :
    (runTurn nullExtract qaClassify zeroSim [] 3 sampleRequest).sufficientContext
        = true ∧
    (runTurn nullExtract qaClassify zeroSim [] 3 sampleRequest).action ≠
        TurnAction.answer ∧
    (runTurn nullExtract qaClassify zeroSim [] 3 sampleRequest).action =
        TurnAction.clarify := by
  decide

/-- C7 (amended): the action of every turn response is one of exactly
collect, answer and clarify; an insufficient turn emits collect; a sufficient
turn never emits collect and emits answer exactly when the retrieval is
non-empty, the clarify action covering the no-grounding state. -/
theorem turn_action_policy (extract : ExtractPolicy) (classify : ClassifyPolicy)
    (sim : SimPolicy) (corpus : List KnowledgeChunk) (n : Nat)
    (req : TurnRequest) :
    ((runTurn extract classify sim corpus n req).action = TurnAction.collect ∨
     (runTurn extract classify sim corpus n req).action = TurnAction.answer ∨
     (runTurn extract classify sim corpus n req).action = TurnAction.clarify) ∧
    ((turnGate extract classify req).sufficient = false →
      (runTurn extract classify sim corpus n req).action = TurnAction.collect ∧
      (runTurn extract classify sim corpus n req).sufficientContext = false) ∧
    ((turnGate extract classify req).sufficient = true →
      (runTurn extract classify sim corpus n req).sufficientContext = true ∧
      (runTurn extract classify sim corpus n req).action ≠ TurnAction.collect ∧
      ((runTurn extract classify sim corpus n req).action = TurnAction.answer ↔
        turnChunks extract classify sim corpus n req ≠ [])) := by
  refine ⟨?_, ?_, ?_⟩
  · simp only [runTurn, runTurnCore]
    split
    · split <;> simp
    · simp
  · intro h
    simp [runTurn, runTurnCore, h]
  · intro h
    have hg := answererRun_grounded (resolveLanguage req)
      (turnChunks extract classify sim corpus n req)
    simp only [runTurn, runTurnCore, h, if_true]
    cases hc : (turnChunks extract classify sim corpus n req).isEmpty with
    | true =>
      rw [hc] at hg
      simp [List.isEmpty_iff.mp hc, answererRun]
    | false =>
      rw [hc] at hg
      have : turnChunks extract classify sim corpus n req ≠ [] := by
        intro hnil
        rw [hnil] at hc
        simp at hc
      simp [hg, this]

/-- C7 witness for the amended claim: the theorem applied at the empty
profile, where gating is insufficient and the action is collect. -/
theorem turn_action_policy_witness :
    (runTurn nullExtract qaClassify zeroSim [] 3 emptyRequest).action =
      TurnAction.collect :=
  ((turn_action_policy nullExtract qaClassify zeroSim [] 3 emptyRequest).2.1
    (by decide)).1

/-- C8: every turn emits exactly one telemetry event at its terminal
transition, on the collect branch as on the answer branch, and the delivery
outcome of that fire-and-forget emission never changes the user-facing
response of the turn. -/
theorem telemetry_once_isolated (extract : ExtractPolicy)
    (classify : ClassifyPolicy) (sim : SimPolicy) (corpus : List KnowledgeChunk)
    (n : Nat) (req : TurnRequest) (d1 d2 : TelemetryEvent → Bool) :
    (runTurnCore extract classify sim corpus n req).2.length = 1 ∧
    (runTurnDelivered d1 extract classify sim corpus n req).1 =
      runTurn extract classify sim corpus n req ∧
    (runTurnDelivered d1 extract classify sim corpus n req).1 =
      (runTurnDelivered d2 extract classify sim corpus n req).1 := by
  refine ⟨?_, rfl, rfl⟩
  simp only [runTurnCore]
  split <;> rfl

/-- C5: the turn handler is stateless — running any sequence of turns leaves
the server state exactly as loaded at startup, and every turn's response is
the pure per-request function of its own caller-supplied request and the
read-only corpus, uninfluenced by any other turn. -/
theorem stateless_server (extract : ExtractPolicy) (classify : ClassifyPolicy)
    (sim : SimPolicy) (n : Nat) (st : ServerState) (reqs : List TurnRequest) :
    (serverRun extract classify sim n st reqs).1 = st ∧
    (serverRun extract classify sim n st reqs).2 =
      reqs.map (fun r => runTurn extract classify sim st.corpus n r) := by
  induction reqs with
  | nil => exact ⟨rfl, rfl⟩
  | cons r rs ih =>
    refine ⟨?_, ?_⟩ <;> simp [serverRun, serverStep, ih.1, ih.2]

/-- C10 counterexample: the single-space message is non-empty, yet the
detector does not return a language for it — the quoted Python divides by the
length of the stripped message, which is zero here, raising
ZeroDivisionError (embedded as none) — refuting totality on all non-empty
messages. -/
theorem detect_language_blank_counterexample :
    (" " : String) ≠ "" ∧ detect_language " " = none := by decide

/-- C10 (amended): for every message whose whitespace-stripped form is
non-empty, the detector returns he exactly when the number of Hebrew-block
characters divided by the stripped length exceeds 0.2 — the exact rational
threshold one fifth — and returns en otherwise. -/
theorem detect_language_threshold (message : String)
    (h : pyStrip message ≠ []) :
    (detect_language message = some "he" ↔
      (pyStrip message).length < 5 * hebrewCount message) ∧
    (detect_language message = some "en" ↔
      ¬ (pyStrip message).length < 5 * hebrewCount message) ∧
    ((1 : ℚ) / 5 < (hebrewCount message : ℚ) / ((pyStrip message).length : ℚ) ↔
      (pyStrip message).length < 5 * hebrewCount message) := by
  have hn : ¬ (pyStrip message).length = 0 := by
    simpa [List.length_eq_zero] using h
  refine ⟨?_, ?_, ?_⟩
  · unfold detect_language
    rw [if_neg hn]
    split
    · next hc => exact iff_of_true rfl hc
    · next hc => exact iff_of_false (by decide) hc
  · unfold detect_language
    rw [if_neg hn]
    split
    · next hc => exact iff_of_false (by decide) (not_not_intro hc)
    · next hc => exact iff_of_true rfl hc
  · have hb : (0:ℚ) < ((pyStrip message).length : ℚ) := by
      exact_mod_cast Nat.pos_of_ne_zero hn
    rw [div_lt_div_iff₀ (by norm_num) hb, one_mul, mul_comm]
    norm_cast

/-- C10 witness for the amended claim: the theorem applied at a concrete
all-Hebrew message, classified he. -/
theorem detect_language_threshold_witness :
    detect_language "שלום" = some "he" :=
  ((detect_language_threshold "שלום" (by decide)).1).mpr (by decide)
